import Mathlib

/-!
Shallow embedding of the core of the `@temporalio/worker` package
(`packages/worker/src/worker.ts`, `packages/worker/src/isolate-builder.ts`,
and the in-sandbox `packages/workflow/src/internals.ts`), together with
theorems settling the frozen claims about the natural-language spec.

External collaborators (the native bridge, the DataConverter, the v8
sandbox, rxjs) are modelled as oracles/outcome parameters; the worker-core
logic (state machine, poll loop, operator callbacks, error routing,
activity-stub generation) is translated from the source.
-/

/-- Worker lifecycle states, from the `State` union type in worker.ts. -/
inductive WorkerState
  | INITIALIZED
  | RUNNING
  | STOPPED
  | STOPPING
  | DRAINING
  | DRAINED
  | FAILED
  | SUSPENDED
deriving DecidableEq, Repr, BEq

/-- Render a state name, as used in log / error messages. -/
def WorkerState.name : WorkerState → String
  | .INITIALIZED => "INITIALIZED"
  | .RUNNING => "RUNNING"
  | .STOPPED => "STOPPED"
  | .STOPPING => "STOPPING"
  | .DRAINING => "DRAINING"
  | .DRAINED => "DRAINED"
  | .FAILED => "FAILED"
  | .SUSPENDED => "SUSPENDED"

/-- Errors thrown by the worker core or surfaced by the native bridge
(`@temporalio/common` IllegalStateError, TypeError, and the classes in
worker `errors.ts` re-exported from the native bridge). -/
inductive WorkerError
  | illegalState (msg : String)
  | typeError (msg : String)
  | workflowError (runId : String)
  | shutdownError
  | gracefulShutdownPeriodExpired (msg : String)
  | other (msg : String)
deriving DecidableEq, Repr, BEq

/-- Recognizer mirroring `err instanceof errors.WorkflowError`. -/
def WorkerError.isWorkflowError : WorkerError → Bool
  | .workflowError _ => true
  | _ => false

/-- Recognizer mirroring `err instanceof IllegalStateError`. -/
def WorkerError.isIllegalState : WorkerError → Bool
  | .illegalState _ => true
  | _ => false

/-! ## Lifecycle methods (worker.ts lines 531-566 and 1137-1141)

Each method first checks the current state and throws an
`IllegalStateError` when the precondition fails; only afterwards does it
assign `this.state`.  We model a method as a function from the current
state to the pair (state after the call, thrown error if any); when the
check throws, no assignment has happened, so the state component is the
input state. -/

/-- `suspendPolling()`: `if (this.state !== 'RUNNING') throw new IllegalStateError('Not running'); this.state = 'SUSPENDED';` -/
def suspendPollingStep (s : WorkerState) : WorkerState × Option WorkerError :=
  if s ≠ .RUNNING then (s, some (.illegalState "Not running"))
  else (.SUSPENDED, none)

/-- `resumePolling()`: `if (this.state !== 'SUSPENDED') throw new IllegalStateError('Not suspended'); this.state = 'RUNNING';` -/
def resumePollingStep (s : WorkerState) : WorkerState × Option WorkerError :=
  if s ≠ .SUSPENDED then (s, some (.illegalState "Not suspended"))
  else (.RUNNING, none)

/-- `shutdown()`: `if (this.state !== 'RUNNING' && this.state !== 'SUSPENDED') throw new IllegalStateError('Not running and not suspended'); this.state = 'STOPPING';`
(the later async transition to DRAINING once the bridge acknowledges is not
part of the synchronous call). -/
def shutdownStep (s : WorkerState) : WorkerState × Option WorkerError :=
  if s ≠ .RUNNING ∧ s ≠ .SUSPENDED then (s, some (.illegalState "Not running and not suspended"))
  else (.STOPPING, none)

/-- The synchronous head of `run()`: `if (this.state !== 'INITIALIZED') throw new IllegalStateError('Poller was aleady started'); this.state = 'RUNNING';` -/
def runStep (s : WorkerState) : WorkerState × Option WorkerError :=
  if s ≠ .INITIALIZED then (s, some (.illegalState "Poller was aleady started"))
  else (.RUNNING, none)

/-! ## The shared poll loop (worker.ts `pollLoop$`, lines 593-618) -/

/-- What one iteration of `pollLoop$` does after reading
`this.stateSubject.getValue()`: poll, wait for the state to leave
SUSPENDED without polling, or end the loop by throwing. -/
inductive PollDecision
  | poll
  | awaitResume
  | halt (err : WorkerError)
deriving DecidableEq, Repr

/-- The `switch (state)` in `pollLoop$`:
RUNNING / STOPPING / DRAINING call `pollFn()`; SUSPENDED waits for the
first non-SUSPENDED state while emitting nothing; every other state throws
`IllegalStateError('Unexpected state ...')`, which ends the loop. -/
def pollLoopDecision : WorkerState → PollDecision
  | .RUNNING => .poll
  | .STOPPING => .poll
  | .DRAINING => .poll
  | .SUSPENDED => .awaitResume
  | s => .halt (.illegalState ("Unexpected state " ++ s.name))

/-- Run the poll loop against a schedule of observed states (the value the
loop reads at each iteration), counting issued polls; the loop ends at the
first state whose decision is `halt`, returning the error produced there
(`catchError` in the source turns a `ShutdownError` from the poll itself
into clean completion; state-based halts always carry `IllegalStateError`). -/
def pollLoopRun : List WorkerState → Nat × Option WorkerError
  | [] => (0, none)
  | s :: rest =>
    match pollLoopDecision s with
    | .poll => ((pollLoopRun rest).1 + 1, (pollLoopRun rest).2)
    | .awaitResume => pollLoopRun rest
    | .halt e => (0, some e)

/-! ## Workflow activations (coresdk.workflow_activation.WFActivation) -/

/-- Attributes of a `startWorkflow` job; the proto fields are optional, and
worker.ts checks them for JS truthiness (`attrs.workflowId && attrs.workflowType && attrs.randomnessSeed`,
an empty string being falsy and the protobufjs Long seed object truthy
whenever present). -/
structure IStartWorkflow where
  workflowId : Option String
  workflowType : Option String
  randomnessSeed : Option Nat
deriving DecidableEq, Repr, BEq

/-- JS truthiness of an optional string proto field. -/
def truthyStr : Option String → Bool
  | some s => s ≠ ""
  | none => false

/-- The `attrs && attrs.workflowId && attrs.workflowType && attrs.randomnessSeed` check. -/
def IStartWorkflow.truthyComplete (a : IStartWorkflow) : Bool :=
  truthyStr a.workflowId && truthyStr a.workflowType && a.randomnessSeed.isSome

/-- One activation job: the proto `WFActivationJob` oneof. The worker core
only inspects the `removeFromCache` and `startWorkflow` variants; the
others are forwarded untouched to the sandbox. -/
inductive WFActivationJob
  | startWorkflow (attrs : IStartWorkflow)
  | fireTimer (seq : Nat)
  | resolveActivity (seq : Nat)
  | signalWorkflow (signalName : String)
  | queryWorkflow (queryType : String)
  | cancelWorkflow
  | updateRandomSeed (seed : Nat)
  | notifyHasChange
  | removeFromCache
deriving DecidableEq, Repr, BEq

/-- The job's `removeFromCache` field is set (truthy). -/
def WFActivationJob.isRemoveFromCache : WFActivationJob → Bool
  | .removeFromCache => true
  | _ => false

/-- The job's `startWorkflow` field, when set. -/
def WFActivationJob.startAttrs : WFActivationJob → Option IStartWorkflow
  | .startWorkflow attrs => some attrs
  | _ => none

/-- A decoded workflow activation. -/
structure WFActivation where
  runId : String
  jobs : List WFActivationJob
  isReplaying : Bool
deriving DecidableEq, Repr, BEq

/-- The synthetic activation `new WFActivation({ runId, jobs: [{ removeFromCache: true }] })`
built by `workflowPoll$`, `workflow$`'s feedback channel, and the
idle-sweep in `workflowOperator` (unset proto fields default). -/
def evictionActivation (runId : String) : WFActivation :=
  { runId := runId, jobs := [.removeFromCache], isReplaying := false }

/-! ## The workflow operator's per-group processing step
(worker.ts `workflowOperator`, lines 793-905)

`mergeMapWithState` (worker `rxutils.ts`, not among the provided sources)
is modelled from the spec: per group (per `runId`) the tasks are processed
strictly serially with an accumulator of type `Option<WorkflowHandle>`;
each step maps the prior handle and the next activation to a new handle
and an output.  Here we embed that one step.  The sandbox (`Workflow
.activate`) and its outcome are external; they are supplied as an oracle. -/

/-- A live workflow handle, as tracked by the operator's state. -/
structure WorkflowHandle where
  runId : String
deriving DecidableEq, Repr, BEq

/-- Oracle for the sandbox: what `workflow.activate(activation)` returns
(encoded `WFActivationCompletion` bytes) or throws.  Also stands in for
errors out of `Workflow.create` / dependency injection, which the same
`catch` handles. -/
structure SandboxModel where
  activate : WFActivation → Except WorkerError (List Nat)

/-- A workflow activation completion as routed to
`nativeWorker.completeWorkflowActivation`: either the sandbox-encoded
buffer, or the catch-block's `WFActivationCompletion.encodeDelimited({ runId, failed: { failure: errorToFailure(error) } })`. -/
inductive WFCompletion
  | fromSandbox (bytes : List Nat)
  | failed (runId : String) (failure : WorkerError)
deriving DecidableEq, Repr, BEq

/-- Result of the body of the `try` block in the workflow processing step
(worker.ts lines 805-879), before the `catch`: either a thrown error, or
the new group state with the operator output. `activateArg` records the
exact activation object passed to `workflow.activate` when that call is
reached (its `jobs` were reassigned to the filtered list on line 813). -/
structure WFInnerResult where
  result : Except WorkerError (Option WorkflowHandle × Bool × Option (List Nat))
  activateArg : Option WFActivation
deriving Repr

/-- The `try` body of the workflow processing step:
1. filter out `removeFromCache` jobs; `close` = one was present;
2. empty filtered list: dispose, and throw `IllegalStateError` if there was
   no eviction job either;
3. no handle: find a `startWorkflow` job (throw if absent or incomplete)
   and create the workflow in a sandbox context;
4. `workflow.activate(activation)` with the filtered jobs. -/
def processActivationInner (sb : SandboxModel) (workflow : Option WorkflowHandle)
    (activation : WFActivation) : WFInnerResult :=
  let jobs := activation.jobs.filter (fun j => !j.isRemoveFromCache)
  let close : Bool := jobs.length < activation.jobs.length
  let activation := { activation with jobs := jobs }
  if jobs.length = 0 then
    if close then ⟨.ok (none, close, none), none⟩
    else ⟨.error (.illegalState "Got a Workflow activation with no jobs"), none⟩
  else
    match workflow with
    | some wf =>
        ⟨(sb.activate activation).map (fun c => (some wf, close, some c)), some activation⟩
    | none =>
        match activation.jobs.findSome? WFActivationJob.startAttrs with
        | some attrs =>
            if attrs.truthyComplete then
              let wf : WorkflowHandle := { runId := activation.runId }
              ⟨(sb.activate activation).map (fun c => (some wf, close, some c)), some activation⟩
            else
              ⟨.error (.typeError "Expected StartWorkflow with workflowId, workflowType and randomnessSeed"), none⟩
        | none =>
            ⟨.error (.illegalState "Received workflow activation for an untracked workflow with no start workflow job"), none⟩

/-- Output of one workflow processing step as seen by the rest of the
pipeline: new group state, the `close` flag (close the group, decrement
the running-workflows gauge), the completion to submit (if any), and the
activation passed to the sandbox (`none` when `activate` was not invoked
on the successful path). -/
structure WFStepOutput where
  state : Option WorkflowHandle
  close : Bool
  completion : Option WFCompletion
  activated : Option WFActivation
deriving Repr

/-- The complete workflow processing step including the `catch (error)`
block (worker.ts lines 880-895): any error thrown inside the `try` is
caught, logged, and converted into a failed completion
`{ runId, failed: { failure } }` with the handle disposed and the group
closed; no error escapes the step. -/
def processActivation (sb : SandboxModel) (workflow : Option WorkflowHandle)
    (activation : WFActivation) : WFStepOutput :=
  let r := processActivationInner sb workflow activation
  match r.result with
  | .ok (st, close, comp) =>
      { state := st, close := close, completion := comp.map .fromSandbox, activated := r.activateArg }
  | .error e =>
      { state := none, close := true,
        completion := some (.failed activation.runId e), activated := r.activateArg }

/-! ## In-sandbox activator (packages/workflow/src/internals.ts) -/

/-- `Activator.removeFromCache()` throws unconditionally. -/
def Activator.removeFromCacheHandler : Except WorkerError Unit :=
  .error (.illegalState "removeFromCache activation job should not reach workflow")

/-- The activator dispatches one handler per job by variant tag; the
`removeFromCache` handler runs during `activate(activation)` iff the
activation carries a `removeFromCache` job. -/
def activatorReachesRemoveFromCache (activation : WFActivation) : Bool :=
  activation.jobs.any WFActivationJob.isRemoveFromCache

/-! ## Activity tasks (coresdk.activity_task.ActivityTask) and the
activity operator (worker.ts `activityOperator`, lines 623-762)

`closeableGroupBy` groups tasks by `formattedTaskToken` (base64 of the
token, computed at poll time and carried on the task) and
`mergeMapWithState` (worker `rxutils.ts`, not among the provided sources)
is modelled from the spec: per group the tasks are processed strictly
serially with an accumulator of type `Option<Activity>`. -/

/-- A value exported by a JS module: the worker only distinguishes
`v instanceof Function` from everything else. -/
inductive JSExportVal
  | fn
  | value
deriving DecidableEq, Repr, BEq

/-- The registered-activities table `resolvedActivities : Map<string, Record<string, Function>>`,
as an association list from module path to the module's exports. -/
def ResolvedActivities := List (String × List (String × JSExportVal))

/-- `this.resolvedActivities.get(path)`. -/
def lookupModule (resolved : ResolvedActivities) (path : String) :
    Option (List (String × JSExportVal)) :=
  (List.find? (fun p => p.1 = path) resolved).map Prod.snd

/-- `module[fnName]` followed by the `fn instanceof Function` test. -/
def moduleHasFunction (module : List (String × JSExportVal)) (fnName : String) : Bool :=
  match (List.find? (fun p => p.1 = fnName) module).map Prod.snd with
  | some .fn => true
  | _ => false

/-- The `start` variant payload, after `extractActivityInfo`: the parsed
`activityType = [modulePath, fnName]` pair, plus the outcome of decoding
the input payloads via the DataConverter (`arrayFromPayloads`), which is
external and supplied with the task. -/
structure ActivityStart where
  activityType : String × String
  argsDecode : Except String (List Nat)
deriving Repr

/-- The task's `variant` oneof. -/
inductive ActivityTaskVariant
  | start (s : ActivityStart)
  | cancel
deriving Repr

/-- A decoded activity task together with the `formattedTaskToken`
computed at poll time; `variant` is optional in the proto and checked. -/
structure ActivityTask where
  taskToken : List Nat
  activityId : String
  formattedTaskToken : String
  variant : Option ActivityTaskVariant
deriving Repr

/-- A live activity handle (`new Activity(info, fn, ...)`): identifies the
resolved function and tracks whether `cancel()` was signalled. -/
structure ActivityHandle where
  path : String
  fnName : String
  args : List Nat
  cancelRequested : Bool
deriving DecidableEq, Repr, BEq

/-- An activity result, `coresdk.activity_result.IActivityResult`; failure
results synthesized by the operator carry only a failure message. -/
inductive ActivityResult
  | completed (bytes : List Nat)
  | failed (message : String)
  | cancelled
deriving DecidableEq, Repr, BEq

/-- The operator's intermediate `output` value (worker.ts lines 640-643):
a synthesized result, a "run this activity" intent, or ignore. -/
inductive ActivityOutput
  | result (r : ActivityResult)
  | run (activity : ActivityHandle)
  | ignore
deriving DecidableEq, Repr, BEq

/-- Result of one `mergeMapWithState` step of the activity operator:
the new group state, the output, how much the in-flight activity gauge
was incremented during the step (worker.ts line 713 — only the successful
`start` path increments), and the `found` span attribute set by the
`cancel` branch. -/
structure ActStepResult where
  state : Option ActivityHandle
  output : ActivityOutput
  gaugeIncr : Nat
  spanFound : Option Bool
deriving DecidableEq, Repr, BEq

/-- One step of the activity operator's `switch (variant)`
(worker.ts lines 629-732), given the prior group state:
* missing `variant` → `TypeError`;
* `start` with an existing handle → `IllegalStateError`;
* `start` whose module is unregistered → synthesized failure result
  `Activity module not found: <path>`, state unchanged (no handle);
* `start` whose export is missing or not a function → synthesized failure
  `Activity function <fn> not found in: <path>`, state unchanged;
* `start` whose args fail to decode → synthesized failure, state unchanged;
* `start` otherwise → create the handle, increment the in-flight activity
  gauge, output a run intent;
* `cancel` without a handle → log, span `found=false`, ignore;
* `cancel` with a handle → span `found=true`, signal cancellation, ignore. -/
def activityTaskStep (resolved : ResolvedActivities) (activity : Option ActivityHandle)
    (task : ActivityTask) : Except WorkerError ActStepResult :=
  match task.variant with
  | none => .error (.typeError "Got an activity task without a \x22variant\x22 attribute")
  | some (.start s) =>
      if activity.isSome then
        .error (.illegalState ("Got start event for an already running activity: " ++ task.formattedTaskToken))
      else
        let path := s.activityType.1
        let fnName := s.activityType.2
        match lookupModule resolved path with
        | none =>
            .ok { state := activity, gaugeIncr := 0, spanFound := none,
                  output := .result (.failed ("Activity module not found: " ++ path)) }
        | some module =>
            if !moduleHasFunction module fnName then
              .ok { state := activity, gaugeIncr := 0, spanFound := none,
                    output := .result (.failed ("Activity function " ++ fnName ++ " not found in: " ++ path)) }
            else
              match s.argsDecode with
              | .error msg =>
                  .ok { state := activity, gaugeIncr := 0, spanFound := none,
                        output := .result (.failed ("Failed to parse activity args for activity " ++ fnName ++ ": " ++ msg)) }
              | .ok args =>
                  let handle : ActivityHandle :=
                    { path := path, fnName := fnName, args := args, cancelRequested := false }
                  .ok { state := some handle, gaugeIncr := 1, spanFound := none,
                        output := .run handle }
  | some .cancel =>
      match activity with
      | none =>
          .ok { state := none, output := .ignore, gaugeIncr := 0, spanFound := some false }
      | some a =>
          .ok { state := some { a with cancelRequested := true }, output := .ignore,
                gaugeIncr := 0, spanFound := some true }

/-- Oracle for running a user activity function to completion
(`output.activity.run(output.input)` in the downstream `mergeMap`). -/
def ActivityRunOracle := ActivityHandle → ActivityResult

/-- Observable state of one activity-task group as it consumes tasks:
current `mergeMapWithState` accumulator, the in-flight activity gauge
(shared subject, here tracked for one group), completions emitted
downstream, whether `group$.close()` has run, and a fatal error thrown
out of the operator (which would fail the worker). -/
structure ActGroupState where
  activity : Option ActivityHandle
  gauge : Int
  emissions : List (List Nat × ActivityResult)
  closed : Bool
  fatal : Option WorkerError
deriving Repr, BEq, DecidableEq

/-- The initial state of a freshly created group under a gauge value `g`. -/
def freshActGroup (g : Int) : ActGroupState :=
  { activity := none, gauge := g, emissions := [], closed := false, fatal := none }

/-- Feed one task through the group's pipeline (worker.ts lines 627-759):
the `mergeMapWithState` step, then the downstream `mergeMap` that either
drops an `ignore` output (`filter` on line 752 removes it: no emission, no
close, no gauge change) or produces a completion — for `run` intents by
invoking the activity via the oracle — after which `tap(group$.close)`
closes the group and the final `tap` decrements the in-flight activity
gauge (worker.ts line 758) whether or not this task ever incremented it. -/
def activityGroupStep (oracle : ActivityRunOracle) (resolved : ResolvedActivities)
    (st : ActGroupState) (task : ActivityTask) : ActGroupState :=
  if st.fatal.isSome then st
  else
    match activityTaskStep resolved st.activity task with
    | .error e => { st with fatal := some e }
    | .ok r =>
        let gauge1 := st.gauge + r.gaugeIncr
        match r.output with
        | .ignore => { st with activity := r.state, gauge := gauge1 }
        | .result res =>
            { activity := r.state, gauge := gauge1 - 1,
              emissions := st.emissions ++ [(task.taskToken, res)],
              closed := true, fatal := none }
        | .run a =>
            { activity := r.state, gauge := gauge1 - 1,
              emissions := st.emissions ++ [(task.taskToken, oracle a)],
              closed := true, fatal := none }

/-- Feed a task list through one group. -/
def activityGroupRun (oracle : ActivityRunOracle) (resolved : ResolvedActivities)
    (st : ActGroupState) : List ActivityTask → ActGroupState
  | [] => st
  | t :: ts => activityGroupRun oracle resolved (activityGroupStep oracle resolved st t) ts

/-! ## Workflow polling and completion routing
(worker.ts `workflowPoll$` lines 979-1008, `workflow$` lines 1015-1053,
`takeUntilState` lines 1097-1099) -/

/-- The outcome of one `nativeWorker.pollWorkflowActivation()` call plus
decoding: either a decoded activation or a rejection from the bridge. -/
inductive WFPollOutcome
  | ok (activation : WFActivation)
  | err (e : WorkerError)
deriving Repr

/-- The body of `workflowPoll$`'s poll function: on success pass the
decoded activation on; in the `catch`, a `WorkflowError` is transformed
into an activation with a single `removeFromCache` job for its `runId`,
and any other error is re-thrown (failing the worker, since `pollLoop$`'s
`catchError` only absorbs `ShutdownError`). -/
def workflowPollHandler (outcome : WFPollOutcome) : Except WorkerError WFActivation :=
  match outcome with
  | .ok activation => .ok activation
  | .err e =>
      match e with
      | .workflowError runId => .ok (evictionActivation runId)
      | _ => .error e

/-- The outcome of one `nativeWorker.completeWorkflowActivation(bytes)` call. -/
inductive CompleteOutcome
  | ok
  | err (e : WorkerError)
deriving Repr

/-- The completion-submission stage of `workflow$` (lines 1028-1050): on a
`WorkflowError` rejection, push `{ runId, jobs: [removeFromCache] }` onto
the `workflowCompletionFeedbackSubject` and keep the worker alive; any
other rejection is re-thrown and fails the worker; success feeds nothing
back. -/
def handleCompleteWFActivation (outcome : CompleteOutcome) :
    Except WorkerError (Option WFActivation) :=
  match outcome with
  | .ok => .ok none
  | .err e =>
      match e with
      | .workflowError runId => .ok (some (evictionActivation runId))
      | _ => .error e

/-- `takeUntilState(state)` pipes through `takeUntil(stateSubject.filter(= state))`:
the subscription stays open after a sequence of state emissions
(`stateSubject` is a BehaviorSubject, so the current state at subscription
time is the first emission) iff none of them equals the target state. -/
def takeUntilStateOpen (target : WorkerState) (emitted : List WorkerState) : Bool :=
  !(emitted.any (fun s => s = target))

/-- The feedback channel of `workflow$` is
`workflowCompletionFeedbackSubject.pipe(this.takeUntilState('DRAINING'))`:
open iff DRAINING has not yet been emitted by the state subject. -/
def feedbackChannelOpen (emitted : List WorkerState) : Bool :=
  takeUntilStateOpen .DRAINING emitted

/-! ## Activity-stub generation
(isolate-builder.ts `WorkflowIsolateBuilder.registerActivities`, lines 212-239) -/

/-- `JSON.stringify([specifier, k])` for two plain strings (no characters
needing escapes arise in module specifiers / export names here). -/
def jsonStringifyPair (a b : String) : String :=
  "[\x22" ++ a ++ "\x22,\x22" ++ b ++ "\x22]"

/-- One generated export in an activity stub file: an exported function
`k(...args)` whose body forwards to `scheduleActivity(<scheduleType>, args)`,
carrying a `k.type = <typeProp>` assignment. -/
structure ActivityStubExport where
  exportName : String
  scheduleType : String
  typeProp : String
deriving DecidableEq, Repr, BEq

/-- The loop body of `registerActivities` for one module: iterate the
exports in order; for each `v instanceof Function` append a stub whose
`scheduleActivity` argument and `.type` property are both the literal
`type = JSON.stringify(JSON.stringify([specifier, k]))` (a string whose
runtime value is `JSON.stringify([specifier, k])`); skip other exports. -/
def registerActivitiesModule (specifier : String) :
    List (String × JSExportVal) → List ActivityStubExport
  | [] => []
  | (k, .fn) :: rest =>
      let type := jsonStringifyPair specifier k
      { exportName := k, scheduleType := type, typeProp := type }
        :: registerActivitiesModule specifier rest
  | (_, .value) :: rest => registerActivitiesModule specifier rest

/-- `registerActivities(vol, sourceDir)`: for every registered activity
module specifier, write the generated stub file into the virtual volume at
`path.resolve(sourceDir, specifier + '.js')`. -/
def registerActivities (activities : List (String × List (String × JSExportVal)))
    (sourceDir : String) : List (String × List ActivityStubExport) :=
  activities.map (fun m => (sourceDir ++ "/" ++ m.1 ++ ".js", registerActivitiesModule m.1 m.2))

/-! ## Concrete artifacts used by counterexamples and witnesses -/

/-- A sandbox oracle whose `activate` always succeeds with an empty buffer. -/
def sandboxOkEmpty : SandboxModel := ⟨fun _ => .ok []⟩

/-- An activity-run oracle; never consulted in the scenarios below. -/
def oracleUnused : ActivityRunOracle := fun _ => .failed "not run"

/-- An activity `start` task whose `activityType` names the unregistered
module `bad` (spec scenario 3). -/
def badModuleStartTask : ActivityTask :=
  { taskToken := [1], activityId := "1", formattedTaskToken := "AQ==",
    variant := some (.start { activityType := ("bad", "f"), argsDecode := .ok [] }) }

/-- An activation for run `r1` with an empty job list (no non-eviction
jobs and no `removeFromCache` job). -/
def emptyJobsActivation : WFActivation :=
  { runId := "r1", jobs := [], isReplaying := false }

/-! ## Claims -/

/-- C4: before every poll, `pollLoop$` inspects the current worker state:
RUNNING, STOPPING and DRAINING call the poll function; SUSPENDED awaits
exit from SUSPENDED without issuing a poll (so a suspend/resume interval
adds no polls — inserting a SUSPENDED observation into any schedule leaves
the poll count and outcome unchanged); any other state ends the loop. -/
theorem pollLoop_state_gate :
    (∀ s : WorkerState,
      (pollLoopDecision s = .poll ↔ (s = .RUNNING ∨ s = .STOPPING ∨ s = .DRAINING)) ∧
      (pollLoopDecision s = .awaitResume ↔ s = .SUSPENDED) ∧
      ((s ≠ .RUNNING ∧ s ≠ .STOPPING ∧ s ≠ .DRAINING ∧ s ≠ .SUSPENDED) →
        ∃ e, pollLoopDecision s = .halt e ∧ e.isIllegalState = true)) ∧
    (∀ (pre post : List WorkerState),
      pollLoopRun (pre ++ .SUSPENDED :: post) = pollLoopRun (pre ++ post)) := by
  constructor
  · intro s
    refine ⟨?_, ?_, ?_⟩
    · cases s <;> simp [pollLoopDecision]
    · cases s <;> simp [pollLoopDecision]
    · cases s <;> simp [pollLoopDecision, WorkerError.isIllegalState]
  · intro pre post
    induction pre with
    | nil => simp [pollLoopRun, pollLoopDecision]
    | cons s rest ih =>
        simp only [List.cons_append, pollLoopRun, List.append_eq]
        rw [ih]

/-- Witness for C4 at concrete inputs: in FAILED the loop halts with an
`IllegalStateError`, and a schedule with a SUSPENDED observation issues the
same number of polls as the same schedule without it. -/
theorem pollLoop_state_gate_witness :
    (∃ e, pollLoopDecision .FAILED = .halt e ∧ e.isIllegalState = true) ∧
    pollLoopRun [.RUNNING, .SUSPENDED, .RUNNING] = pollLoopRun [.RUNNING, .RUNNING] := by
  refine ⟨(pollLoop_state_gate.1 .FAILED).2.2 (by decide), ?_⟩
  exact pollLoop_state_gate.2 [.RUNNING] [.RUNNING]

/-- C5: each lifecycle operation succeeds exactly from its legal source
state (`run` from INITIALIZED, `suspendPolling` from RUNNING,
`resumePolling` from SUSPENDED, `shutdown` from RUNNING or SUSPENDED),
moving to its target state; from any other state it throws an
`IllegalStateError` and leaves the state unchanged. -/
theorem lifecycle_preconditions (s : WorkerState) :
    ((runStep s).2 = none ↔ s = .INITIALIZED) ∧
    ((suspendPollingStep s).2 = none ↔ s = .RUNNING) ∧
    ((resumePollingStep s).2 = none ↔ s = .SUSPENDED) ∧
    ((shutdownStep s).2 = none ↔ (s = .RUNNING ∨ s = .SUSPENDED)) ∧
    ((runStep s).2 = none → (runStep s).1 = .RUNNING) ∧
    ((suspendPollingStep s).2 = none → (suspendPollingStep s).1 = .SUSPENDED) ∧
    ((resumePollingStep s).2 = none → (resumePollingStep s).1 = .RUNNING) ∧
    ((shutdownStep s).2 = none → (shutdownStep s).1 = .STOPPING) ∧
    (∀ e, (runStep s).2 = some e → e.isIllegalState = true ∧ (runStep s).1 = s) ∧
    (∀ e, (suspendPollingStep s).2 = some e → e.isIllegalState = true ∧ (suspendPollingStep s).1 = s) ∧
    (∀ e, (resumePollingStep s).2 = some e → e.isIllegalState = true ∧ (resumePollingStep s).1 = s) ∧
    (∀ e, (shutdownStep s).2 = some e → e.isIllegalState = true ∧ (shutdownStep s).1 = s) := by
  cases s <;>
    simp [runStep, suspendPollingStep, resumePollingStep, shutdownStep, WorkerError.isIllegalState]

/-- Witness for C5 at the concrete state STOPPED: `run()` throws an
`IllegalStateError` and the state is unchanged. -/
theorem lifecycle_preconditions_witness :
    WorkerError.isIllegalState (.illegalState "Poller was aleady started") = true ∧
    (runStep .STOPPED).1 = .STOPPED := by
  obtain ⟨-, -, -, -, -, -, -, -, h9, -, -, -⟩ := lifecycle_preconditions .STOPPED
  exact h9 _ rfl

/-- C7: a `cancel` activity task arriving on a group with no existing
handle produces no completion, leaves the in-flight activity gauge
unchanged, does not close the group, and records span attribute
`found=false`; the whole group state is unchanged. -/
theorem cancel_unknown_token_ignored
    (oracle : ActivityRunOracle) (resolved : ResolvedActivities)
    (tok : List Nat) (aid ftt : String) (g : Int) :
    activityTaskStep resolved none
        { taskToken := tok, activityId := aid, formattedTaskToken := ftt,
          variant := some .cancel }
      = .ok { state := none, output := .ignore, gaugeIncr := 0, spanFound := some false } ∧
    activityGroupStep oracle resolved (freshActGroup g)
        { taskToken := tok, activityId := aid, formattedTaskToken := ftt,
          variant := some .cancel }
      = freshActGroup g := by
  constructor
  · rfl
  · simp [activityGroupStep, activityTaskStep, freshActGroup]

/-- C10: when `pollWorkflowActivation` itself rejects with a
`WorkflowError` carrying run id `r`, the poll handler does not fail the
worker: it returns the synthetic activation `{ runId: r, jobs:
[removeFromCache] }`, which the workflow operator then processes like any
polled eviction (disposing the handle, closing the group, emitting no
completion); successfully decoded activations pass through unchanged. -/
theorem workflowPoll_workflowError_to_eviction :
    (∀ r, workflowPollHandler (.err (.workflowError r)) = .ok (evictionActivation r)) ∧
    (∀ act, workflowPollHandler (.ok act) = .ok act) ∧
    (∀ (sb : SandboxModel) (wf : Option WorkflowHandle) (r : String),
      processActivation sb wf (evictionActivation r)
        = { state := none, close := true, completion := none, activated := none }) := by
  refine ⟨fun r => rfl, fun act => rfl, fun sb wf r => ?_⟩
  cases wf <;> rfl

/-- C1 (counterexample): processing an activation whose job list is empty
(no non-eviction jobs, no `removeFromCache`) does raise
`IllegalStateError('Got a Workflow activation with no jobs')` inside the
`try` body — but the step's `catch (error)` block swallows it and returns a
per-run failed completion `{ runId, failed }` with the group closed.  No
error escapes the processing step, so the worker does not transition to
FAILED: the claim's "fatal to the worker, not merely a per-run failure" is
false at this input — it is exactly a per-run failure. -/
theorem emptyActivation_caught_counterexample :
    (processActivationInner sandboxOkEmpty none emptyJobsActivation).result
      = .error (.illegalState "Got a Workflow activation with no jobs") ∧
    processActivation sandboxOkEmpty none emptyJobsActivation
      = { state := none, close := true,
          completion := some (.failed "r1" (.illegalState "Got a Workflow activation with no jobs")),
          activated := none } := by
  exact ⟨rfl, rfl⟩

/-- C1 (amended): for every workflow activation whose job list contains no
non-eviction jobs and no `removeFromCache` job (i.e. an empty job list),
the `try` body of the workflow processing step raises
`IllegalStateError('Got a Workflow activation with no jobs')`; the step's
`catch` converts it into a per-run failed completion
`{ runId, failed: { failure } }` with the handle disposed and the group
closed — the error is not fatal to the worker (no FAILED transition). -/
theorem emptyActivation_raises_caught_illegalState
    (sb : SandboxModel) (wf : Option WorkflowHandle) (act : WFActivation)
    (h : act.jobs = []) :
    (processActivationInner sb wf act).result
      = .error (.illegalState "Got a Workflow activation with no jobs") ∧
    processActivation sb wf act
      = { state := none, close := true,
          completion := some (.failed act.runId (.illegalState "Got a Workflow activation with no jobs")),
          activated := none } := by
  constructor
  · simp [processActivationInner, h]
  · simp [processActivation, processActivationInner, h]

/-- Witness for C1's amended theorem at the concrete empty activation. -/
theorem emptyActivation_raises_caught_illegalState_witness :
    (processActivationInner sandboxOkEmpty none emptyJobsActivation).result
      = .error (.illegalState "Got a Workflow activation with no jobs") ∧
    processActivation sandboxOkEmpty none emptyJobsActivation
      = { state := none, close := true,
          completion := some (.failed "r1" (.illegalState "Got a Workflow activation with no jobs")),
          activated := none } := by
  exact emptyActivation_raises_caught_illegalState sandboxOkEmpty none emptyJobsActivation rfl

/-- C3 (counterexample): the feedback channel is piped through
`takeUntilState('DRAINING')`, which completes it at the first emission of
DRAINING by the state subject.  After the emissions RUNNING, STOPPING,
DRAINING — the worker having just entered, and still being in, DRAINING —
the channel is already closed, refuting "it remains open throughout the
DRAINING state / is closed when the state transitions out of DRAINING". -/
theorem feedback_channel_closed_while_draining :
    feedbackChannelOpen [.RUNNING, .STOPPING, .DRAINING] = false := by
  rfl

/-- C3 (amended): if the bridge rejects a workflow activation completion
with a per-run `WorkflowError` carrying run id `r`, the worker does not
fail: it re-injects the synthetic activation `{ runId: r, jobs:
[removeFromCache] }` into the workflow pipeline's feedback subject; any
other error from `completeWorkflowActivation` is re-thrown and fatal; and
the feedback channel is closed as soon as the worker state transitions
INTO `DRAINING` (it stays open exactly while DRAINING has never been
emitted). -/
theorem workflow_feedback_routing_and_lifetime :
    (∀ r, handleCompleteWFActivation (.err (.workflowError r)) = .ok (some (evictionActivation r))) ∧
    (∀ e, e.isWorkflowError = false → handleCompleteWFActivation (.err e) = .error e) ∧
    (∀ emitted : List WorkerState, feedbackChannelOpen emitted = true ↔ .DRAINING ∉ emitted) := by
  refine ⟨fun r => rfl, ?_, ?_⟩
  · intro e he
    cases e <;> simp_all [handleCompleteWFActivation, WorkerError.isWorkflowError]
  · intro emitted
    simp only [feedbackChannelOpen, takeUntilStateOpen, Bool.not_eq_true',
      List.any_eq_false, decide_eq_true_eq]
    constructor
    · intro h hmem
      exact h _ hmem rfl
    · intro h x hx hxe
      exact h (hxe ▸ hx)

/-- Witness for C3's amended theorem at concrete inputs: a
`ShutdownError` rejection is fatal, a `WorkflowError` one feeds back an
eviction, and the channel is open before DRAINING is first emitted. -/
theorem workflow_feedback_routing_and_lifetime_witness :
    handleCompleteWFActivation (.err .shutdownError) = .error .shutdownError ∧
    handleCompleteWFActivation (.err (.workflowError "r1")) = .ok (some (evictionActivation "r1")) ∧
    feedbackChannelOpen [.RUNNING, .STOPPING] = true := by
  obtain ⟨h1, h2, h3⟩ := workflow_feedback_routing_and_lifetime
  exact ⟨h2 .shutdownError rfl, h1 "r1", (h3 [.RUNNING, .STOPPING]).mpr (by simp)⟩

/-- C2: evaluation of the code at the failing input.  An activity `start`
task whose module path `bad` is not registered takes the synthesized
"module not found" route: the `mergeMapWithState` step increments nothing
(the in-flight gauge is only incremented on the successful `start` path,
worker.ts line 713), yet the synthesized result flows past the `filter`
into the final `tap`, which decrements the gauge unconditionally
(worker.ts line 758).  Starting from gauge 0, processing this single task
drives `numInFlightActivities` to −1: the gauge goes below 0 and the
decrement has no matching increment, contradicting the claimed invariant
(and the gauge's own meaning as a count of in-flight activity tasks). -/
theorem activityGauge_negative_on_unresolved_module :
    activityTaskStep [] none badModuleStartTask
      = .ok { state := none, gaugeIncr := 0, spanFound := none,
              output := .result (.failed "Activity module not found: bad") } ∧
    (activityGroupRun oracleUnused [] (freshActGroup 0) [badModuleStartTask]).gauge = -1 ∧
    (activityGroupRun oracleUnused [] (freshActGroup 0) [badModuleStartTask]).gauge < 0 := by
  refine ⟨rfl, rfl, ?_⟩
  decide

/-- C6: for an activity `start` task on a fresh group whose
`activityType = [path, fnName]` names an unregistered module, the worker
synthesizes an immediate failed completion with message
`Activity module not found: <path>`; when the module is registered but the
export is missing or not a function, the message is
`Activity function <fn> not found in: <path>`; in both cases no
ActivityHandle is created (the group state stays `none`) and the in-flight
gauge is not incremented. -/
theorem activity_start_unresolved_synthesizes_failure
    (resolved : ResolvedActivities) (tok : List Nat) (aid ftt path fnName : String)
    (dec : Except String (List Nat)) :
    (lookupModule resolved path = none →
      activityTaskStep resolved none
          { taskToken := tok, activityId := aid, formattedTaskToken := ftt,
            variant := some (.start { activityType := (path, fnName), argsDecode := dec }) }
        = .ok { state := none, gaugeIncr := 0, spanFound := none,
                output := .result (.failed ("Activity module not found: " ++ path)) }) ∧
    (∀ module, lookupModule resolved path = some module →
      moduleHasFunction module fnName = false →
      activityTaskStep resolved none
          { taskToken := tok, activityId := aid, formattedTaskToken := ftt,
            variant := some (.start { activityType := (path, fnName), argsDecode := dec }) }
        = .ok { state := none, gaugeIncr := 0, spanFound := none,
                output := .result (.failed ("Activity function " ++ fnName ++ " not found in: " ++ path)) }) := by
  constructor
  · intro h
    simp [activityTaskStep, h]
  · intro module h hfn
    simp [activityTaskStep, h, hfn]

/-- Witness for C6 at concrete inputs: the unregistered module `bad`, and
the module `m` whose export `f` is not a function. -/
theorem activity_start_unresolved_synthesizes_failure_witness :
    activityTaskStep [] none
        { taskToken := [1], activityId := "1", formattedTaskToken := "AQ==",
          variant := some (.start { activityType := ("bad", "f"), argsDecode := .ok [] }) }
      = .ok { state := none, gaugeIncr := 0, spanFound := none,
              output := .result (.failed "Activity module not found: bad") } ∧
    activityTaskStep [("m", [("f", .value)])] none
        { taskToken := [2], activityId := "2", formattedTaskToken := "Ag==",
          variant := some (.start { activityType := ("m", "f"), argsDecode := .ok [] }) }
      = .ok { state := none, gaugeIncr := 0, spanFound := none,
              output := .result (.failed "Activity function f not found in: m") } := by
  constructor
  · exact (activity_start_unresolved_synthesizes_failure [] [1] "1" "AQ==" "bad" "f" (.ok [])).1 rfl
  · exact (activity_start_unresolved_synthesizes_failure [("m", [("f", .value)])] [2] "2" "Ag==" "m" "f"
      (.ok [])).2 [("f", .value)] rfl rfl

/-- Helper for C8: the stub list generated for a module exports exactly
the function-valued entries, in order. -/
theorem registerActivitiesModule_names (specifier : String) :
    ∀ module : List (String × JSExportVal),
      (registerActivitiesModule specifier module).map ActivityStubExport.exportName
        = (module.filter (fun kv => kv.2 = .fn)).map Prod.fst := by
  intro module
  induction module with
  | nil => rfl
  | cons kv rest ih =>
      obtain ⟨k, v⟩ := kv
      cases v <;> simp [registerActivitiesModule, ih]

/-- C8: for every activity module specifier `S`, the bundler writes a
virtual file at `<sourceDir>/S.js` whose stubs cover exactly the
function-valued exports (non-function exports are ignored), and every
generated stub for export `f` forwards to
`scheduleActivity(JSON.stringify([S, f]), args)` while attaching a
`.type` property equal to that same stringified pair. -/
theorem registerActivities_stub_generation :
    (∀ (specifier : String) (module : List (String × JSExportVal)),
      (registerActivitiesModule specifier module).map ActivityStubExport.exportName
        = (module.filter (fun kv => kv.2 = .fn)).map Prod.fst) ∧
    (∀ (specifier : String) (module : List (String × JSExportVal))
        (st : ActivityStubExport), st ∈ registerActivitiesModule specifier module →
      st.scheduleType = jsonStringifyPair specifier st.exportName ∧
      st.typeProp = st.scheduleType) ∧
    (∀ (activities : List (String × List (String × JSExportVal))) (sourceDir : String)
        (S : String) (m : List (String × JSExportVal)), (S, m) ∈ activities →
      (sourceDir ++ "/" ++ S ++ ".js", registerActivitiesModule S m)
        ∈ registerActivities activities sourceDir) := by
  refine ⟨registerActivitiesModule_names, ?_, ?_⟩
  · intro specifier module
    induction module with
    | nil => intro st h; cases h
    | cons kv rest ih =>
        obtain ⟨k, v⟩ := kv
        intro st h
        cases v with
        | fn =>
            rcases List.mem_cons.mp h with h1 | h2
            · subst h1; exact ⟨rfl, rfl⟩
            · exact ih st h2
        | value => exact ih st h
  · intro activities sourceDir S m h
    exact List.mem_map.mpr ⟨(S, m), h, rfl⟩

/-- Witness for C8 at a concrete module `modA` with a function export `f`
and a non-function export `x`. -/
theorem registerActivities_stub_generation_witness :
    (registerActivitiesModule "modA" [("f", .fn), ("x", .value)]).map ActivityStubExport.exportName
      = ["f"] ∧
    ({ exportName := "f", scheduleType := jsonStringifyPair "modA" "f",
       typeProp := jsonStringifyPair "modA" "f" : ActivityStubExport}.scheduleType
        = jsonStringifyPair "modA" "f" ∧
     ({ exportName := "f", scheduleType := jsonStringifyPair "modA" "f",
        typeProp := jsonStringifyPair "modA" "f" : ActivityStubExport}.typeProp
        = jsonStringifyPair "modA" "f")) ∧
    ("/src/modA.js", registerActivitiesModule "modA" [("f", .fn), ("x", .value)])
      ∈ registerActivities [("modA", [("f", .fn), ("x", .value)])] "/src" := by
  obtain ⟨h1, h2, h3⟩ := registerActivities_stub_generation
  refine ⟨?_, ?_, ?_⟩
  · exact (h1 "modA" [("f", .fn), ("x", .value)]).trans (by rfl)
  · exact h2 "modA" [("f", .fn), ("x", .value)] _ (by simp [registerActivitiesModule])
  · exact h3 [("modA", [("f", .fn), ("x", .value)])] "/src" "modA" _ (by simp)

/-- Helper for C9: the only activation object ever handed to
`workflow.activate` by the processing step is the incoming activation with
its `jobs` reassigned to the `removeFromCache`-filtered list
(worker.ts lines 810-813 precede the single `activate` call site). -/
theorem processActivationInner_activateArg (sb : SandboxModel) (wf : Option WorkflowHandle)
    (act : WFActivation) :
    (processActivationInner sb wf act).activateArg = none ∨
    (processActivationInner sb wf act).activateArg
      = some { act with jobs := act.jobs.filter (fun j => !j.isRemoveFromCache) } := by
  simp only [processActivationInner]
  split
  · split <;> simp
  · split
    · simp
    · split
      · split <;> simp
      · simp

/-- C9: every activation passed to a workflow's `activate()` has had all
`removeFromCache` jobs filtered out beforehand by the pipeline, so the
in-sandbox Activator's `removeFromCache` handler (which throws
`IllegalStateError`) is never reached for an activation processed through
the worker's workflow operator. -/
theorem activate_receives_no_removeFromCache
    (sb : SandboxModel) (wf : Option WorkflowHandle) (act a : WFActivation)
    (h : (processActivationInner sb wf act).activateArg = some a) :
    (∀ j ∈ a.jobs, j.isRemoveFromCache = false) ∧
    activatorReachesRemoveFromCache a = false := by
  rcases processActivationInner_activateArg sb wf act with h0 | h0
  · rw [h0] at h; cases h
  · rw [h0] at h
    have ha := Option.some.inj h
    subst ha
    have hjobs : ∀ j ∈ act.jobs.filter (fun j => !j.isRemoveFromCache),
        j.isRemoveFromCache = false := by
      intro j hj
      have := List.of_mem_filter hj
      simpa using this
    refine ⟨hjobs, ?_⟩
    simp only [activatorReachesRemoveFromCache, List.any_eq_false]
    intro j hj
    simp [hjobs j hj]

/-- An activation carrying a complete `startWorkflow` job together with a
`removeFromCache` job (spec scenario "eviction mid-run", compressed). -/
def startAndEvictActivation : WFActivation :=
  { runId := "r1",
    jobs := [.startWorkflow { workflowId := some "wid", workflowType := some "wt",
                              randomnessSeed := some 7 },
             .removeFromCache],
    isReplaying := false }

/-- Witness for C9 at a concrete activation: the sandbox receives only the
`startWorkflow` job; the eviction job was stripped. -/
theorem activate_receives_no_removeFromCache_witness :
    (∀ j ∈ ({ runId := "r1",
              jobs := [.startWorkflow { workflowId := some "wid", workflowType := some "wt",
                                        randomnessSeed := some 7 }],
              isReplaying := false : WFActivation}).jobs, j.isRemoveFromCache = false) ∧
    activatorReachesRemoveFromCache
        { runId := "r1",
          jobs := [.startWorkflow { workflowId := some "wid", workflowType := some "wt",
                                    randomnessSeed := some 7 }],
          isReplaying := false } = false := by
  exact activate_receives_no_removeFromCache sandboxOkEmpty none startAndEvictActivation _ rfl
